import Mathlib

/-!
Shallow embedding of `src/mcp-server-email/src/server.py` (a Gmail MCP
server): the message normalizer `parse_gmail_message`, the four tool
handlers (`send_email_tool`, `read_inbox_tool`, `search_emails_tool`,
`mark_as_read_tool`), the dispatcher `call_tool`, the cached authorizer
`get_gmail_service`, and the token-file save.

Modelling conventions:
- Python exceptions are values of `PyError`; a Python function that can
  raise is embedded as returning `Except PyError _`.
- `base64.urlsafe_b64decode(s).decode()` is embedded as an abstract
  `decode : String → Option String` parameter (`none` models a raised
  `binascii.Error` on invalid base64 or `UnicodeDecodeError` on bytes
  that are not valid UTF-8); every theorem quantifies over `decode`.
- Dict access `d[k]` on a possibly-absent key is `Option` lookup, with a
  raised `KeyError k` where Python would raise.
- Argument values are assumed to match the declared schema types
  (strings/integers/booleans); dynamically ill-typed values present under
  a key are outside the model.
- Remote Gmail API calls are mediated by an environment `Env` of response
  functions; each issued call is recorded in a trace (`List Call`) so that
  call counts and request shapes can be stated.
-/

/-- Python exception value, as observed at the dispatch boundary. -/
inductive PyError where
  | keyError (key : String)
  | valueError (msg : String)
  | exn (msg : String)
deriving DecidableEq, Repr

/-- Python `str(e)`: `str(KeyError('to'))` renders as `'to'` (quoted);
`str` of other exceptions renders their message. -/
def pyStr : PyError → String
  | .keyError k => "\x27" ++ k ++ "\x27"
  | .valueError m => m
  | .exn m => m

/-- One entry of `msg['payload']['headers']`: `{h['name']: h['value']}`. -/
structure Header where
  name : String
  value : String
deriving DecidableEq, Repr

/-- A `body` object of a message part or payload; the `data` key may be
absent (`none`). -/
structure PartBody where
  data : Option String
deriving DecidableEq, Repr

/-- One entry of `msg['payload']['parts']`. The `mimeType` and `body` keys
may be absent; a part may itself carry nested `parts` (which
`parse_gmail_message` never reads: its scan is depth-one). -/
inductive MessagePart where
  | mk (mimeType : Option String) (body : Option PartBody)
      (parts : List MessagePart)

/-- Projection for the `mimeType` key of a part. -/
def MessagePart.mimeType : MessagePart → Option String
  | .mk m _ _ => m

/-- Projection for the `body` key of a part. -/
def MessagePart.body : MessagePart → Option PartBody
  | .mk _ b _ => b

/-- Projection for the nested `parts` key of a part. -/
def MessagePart.parts : MessagePart → List MessagePart
  | .mk _ _ p => p

/-- The top-level view of a part: everything `parse_gmail_message` ever
reads of it (its `mimeType` and `body`, never its nested `parts`). -/
def MessagePart.topView (p : MessagePart) : Option String × Option PartBody :=
  (p.mimeType, p.body)

/-- `msg['payload']`: a headers list, an optional `parts` array, and an
optional single-part `body`. -/
structure Payload where
  headers : List Header
  parts : Option (List MessagePart)
  body : Option PartBody

/-- A raw Gmail API message as consumed by `parse_gmail_message`: its
`id` and `payload` keys (the claims' precondition guarantees both). -/
structure GmailMessage where
  id : String
  payload : Payload

/-- The structured dict returned by `parse_gmail_message`
(the `from` and `to` keys are spelled `fromAddr`/`toAddr`: both are
reserved words in Lean). -/
structure ParsedMessage where
  id : String
  fromAddr : String
  toAddr : String
  subject : String
  date : String
  body : String
deriving DecidableEq, Repr

/-- Python `str[:n]` slicing: the first `n` characters. -/
def pySlice (s : String) (n : Nat) : String :=
  ⟨s.data.take n⟩

/-- Python `str.strip()`: drop leading and trailing whitespace. -/
def pyStrip (s : String) : String :=
  ⟨((s.data.dropWhile Char.isWhitespace).reverse.dropWhile
      Char.isWhitespace).reverse⟩

/-- `headers = {h['name']: h['value'] for h in msg['payload']['headers']}`
followed by `headers.get(name, '')`: dict comprehension (later duplicate
names overwrite earlier ones), `.get` with default `''`.
Lookup is case-sensitive. -/
def headerGet (hs : List Header) (name : String) : String :=
  (hs.foldl (fun acc h => if h.name = name then some h.value else acc)
      (none : Option String)).getD ""

/-- The `for part in msg['payload']['parts']` loop: scan for the first
part whose `mimeType` equals `'text/plain'`, decode its `body.data`,
and `break`; `body` stays `""` if no part matches. Raises `KeyError` on a
missing `mimeType`, `body`, or `data` key, and an exception if decoding
fails. Nested parts of each entry are never consulted (depth-one scan). -/
def scanParts (decode : String → Option String) :
    List MessagePart → Except PyError String
  | [] => .ok ""
  | part :: rest =>
    match part.mimeType with
    | none => .error (.keyError "mimeType")
    | some mt =>
      if mt = "text/plain" then
        match part.body with
        | none => .error (.keyError "body")
        | some pb =>
          match pb.data with
          | none => .error (.keyError "data")
          | some d =>
            match decode d with
            | none => .error (.exn "base64/utf-8 decode failed")
            | some t => .ok t
      else
        scanParts decode rest

/-- Body extraction of `parse_gmail_message`: if `'parts' in payload`,
scan the parts array; `elif 'body' in payload and 'data' in
payload['body']`, decode the single-part body; else `body = ""`. -/
def extractBody (decode : String → Option String) (p : Payload) :
    Except PyError String :=
  match p.parts with
  | some parts => scanParts decode parts
  | none =>
    match p.body with
    | some pb =>
      match pb.data with
      | some d =>
        match decode d with
        | none => .error (.exn "base64/utf-8 decode failed")
        | some t => .ok t
      | none => .ok ""
    | none => .ok ""

/-- `parse_gmail_message(msg)`: headers dict, body extraction, then the
six-field result with `body.strip()`. -/
def parse_gmail_message (decode : String → Option String)
    (msg : GmailMessage) : Except PyError ParsedMessage :=
  match extractBody decode msg.payload with
  | .error e => .error e
  | .ok body =>
    .ok { id := msg.id
          fromAddr := headerGet msg.payload.headers "From"
          toAddr := headerGet msg.payload.headers "To"
          subject := headerGet msg.payload.headers "Subject"
          date := headerGet msg.payload.headers "Date"
          body := pyStrip body }

/-- A JSON-ish argument value, as constrained by the tool schemas. -/
inductive Value where
  | str (s : String)
  | int (n : Int)
  | bool (b : Bool)
deriving DecidableEq, Repr

/-- The `arguments` mapping of a tool call. -/
abbrev Args := List (String × Value)

/-- Dict lookup `k in args` / `args[k]` as an `Option`. -/
def Args.get? (a : Args) (k : String) : Option Value :=
  (a.find? (fun p => p.1 == k)).map (fun p => p.2)

/-- Overwrite one key of an argument mapping (first match wins in
`Args.get?`, so prepending shadows any previous binding). -/
def Args.set (a : Args) (k : String) (v : Value) : Args :=
  (k, v) :: a

/-- `args[k]` for a schema-required string field: raises `KeyError k`
when the key is absent (values are assumed schema-typed). -/
def reqStr (a : Args) (k : String) : Except PyError String :=
  match Args.get? a k with
  | some (.str s) => .ok s
  | some _ => .error (.exn "TypeError")
  | none => .error (.keyError k)

/-- `args.get(k, d)` for an optional string field. -/
def optStr (a : Args) (k : String) (d : String) : String :=
  match Args.get? a k with
  | some (.str s) => s
  | _ => d

/-- `args.get(k, d)` for an optional integer field. -/
def optInt (a : Args) (k : String) (d : Int) : Int :=
  match Args.get? a k with
  | some (.int n) => n
  | _ => d

/-- `args.get(k, d)` for an optional boolean field. -/
def optBool (a : Args) (k : String) (d : Bool) : Bool :=
  match Args.get? a k with
  | some (.bool b) => b
  | _ => d

/-- A `service.users().messages().list(...)` request: its query string
and its `maxResults` argument (`none` when the call passes none, as in
`mark_as_read_tool`). -/
structure ListRequest where
  q : String
  maxResults : Option Int
deriving DecidableEq, Repr

/-- One remote Gmail API call, as recorded in a handler's trace. -/
inductive Call where
  | list (req : ListRequest)
  | get (mid : String)
  | send (raw : String)
  | modify (mid : String)
deriving DecidableEq, Repr

/-- The ids of the `modify` calls of a trace, in order. -/
def modifyCalls (tr : List Call) : List String :=
  tr.filterMap (fun c => match c with | .modify mid => some mid | _ => none)

/-- The environment a handler runs against: the outcome of
`get_gmail_service()`, the configured `MAX_EMAILS` cap, the MIME build +
base64-encode of `send_email_tool` (abstract), and the remote API's
response to each request kind (an `.error` models a raised exception).
`decode` is the body decoder passed through to `parse_gmail_message`. -/
structure Env where
  svc : Except PyError Unit
  maxEmails : Int
  encodeRaw : String → String → String → String
  listResult : ListRequest → Except PyError (List String)
  getResult : String → Except PyError GmailMessage
  sendResult : String → Except PyError Unit
  modifyResult : String → Except PyError Unit
  decode : String → Option String

/-- The `try ... except Exception as e: return [TextContent(... f"{pre}{str(e)}")]`
wrapper shared by all four handlers: any error raised by the body is
converted into a single text result `pre ++ str(e)`. -/
def tryExcept (pre : String) :
    Except PyError (List String) × List Call →
    Except PyError (List String) × List Call
  | (.ok t, tr) => (.ok t, tr)
  | (.error e, tr) => (.ok [pre ++ pyStr e], tr)

/-- Body of `send_email_tool`'s `try` block: obtain the service, build
and encode the MIME message, issue one send call, and report success. -/
def send_email_run (env : Env) (toA subject body : String) :
    Except PyError (List String) × List Call :=
  match env.svc with
  | .error e => (.error e, [])
  | .ok _ =>
    let raw := env.encodeRaw toA subject body
    match env.sendResult raw with
    | .error e => (.error e, [.send raw])
    | .ok _ =>
      (.ok ["Email sent successfully to " ++ toA ++ "\nSubject: " ++ subject],
       [.send raw])

/-- `send_email_tool(args)`: the required fields `to`, `subject`, `body`
are read from `args` before the `try` block (a missing one raises
`KeyError` uncaught); the body runs under `tryExcept`. -/
def send_email_tool (env : Env) (args : Args) :
    Except PyError (List String) × List Call :=
  match reqStr args "to" with
  | .error e => (.error e, [])
  | .ok toA =>
    match reqStr args "subject" with
    | .error e => (.error e, [])
    | .ok subject =>
      match reqStr args "body" with
      | .error e => (.error e, [])
      | .ok body =>
        tryExcept "[ERROR] Failed to send email: "
          (send_email_run env toA subject body)

/-- The per-id fetch loop of `read_inbox_tool` / `search_emails_tool`:
`messages.get(userId='me', id=..., format='full')` then
`parse_gmail_message`, sequentially and in listing order; the first
raised error aborts the loop. -/
def fetchAll (env : Env) : List String →
    Except PyError (List ParsedMessage) × List Call
  | [] => (.ok [], [])
  | mid :: rest =>
    match env.getResult mid with
    | .error e => (.error e, [.get mid])
    | .ok m =>
      match parse_gmail_message env.decode m with
      | .error e => (.error e, [.get mid])
      | .ok p =>
        match fetchAll env rest with
        | (.ok ps, tr) => (.ok (p :: ps), .get mid :: tr)
        | (.error e, tr) => (.error e, .get mid :: tr)

/-- The display rendering of one email in `read_inbox_tool`: the body is
sliced to its first 200 characters (`e['body'][:200]`). -/
def renderInboxEmail (i : Nat) (e : ParsedMessage) : String :=
  "--- Email " ++ toString i ++ " ---\nFrom: " ++ e.fromAddr ++
    "\nSubject: " ++ e.subject ++ "\nDate: " ++ e.date ++
    "\nBody:\n" ++ pySlice e.body 200 ++ "...\n\n"

/-- The display rendering of one email in `search_emails_tool`: no body
line at all. -/
def renderSearchEmail (i : Nat) (e : ParsedMessage) : String :=
  "--- Email " ++ toString i ++ " ---\nFrom: " ++ e.fromAddr ++
    "\nSubject: " ++ e.subject ++ "\nDate: " ++ e.date ++ "\n\n"

/-- `for i, e in enumerate(emails, 1): result += f(i, e)`. -/
def renderFrom (f : Nat → ParsedMessage → String) :
    Nat → List ParsedMessage → String
  | _, [] => ""
  | i, e :: rest => f i e ++ renderFrom f (i + 1) rest

/-- Body of `read_inbox_tool`'s `try` block: build the query, list the
matching ids (with `maxResults=limit`), report "No emails found" for an
empty listing, otherwise fetch + parse each message and render. -/
def read_inbox_run (env : Env) (mailbox : String) (limit : Int)
    (unread_only : Bool) : Except PyError (List String) × List Call :=
  match env.svc with
  | .error e => (.error e, [])
  | .ok _ =>
    let query := "in:" ++ mailbox.toLower ++
      (if unread_only then " is:unread" else "")
    let req : ListRequest := ⟨query, some limit⟩
    match env.listResult req with
    | .error e => (.error e, [.list req])
    | .ok ids =>
      if ids.isEmpty then (.ok ["No emails found"], [.list req])
      else
        match fetchAll env ids with
        | (.error e, tr) => (.error e, .list req :: tr)
        | (.ok emails, tr) =>
          (.ok ["Found " ++ toString emails.length ++ " email(s):\n\n" ++
                renderFrom renderInboxEmail 1 emails],
           .list req :: tr)

/-- `read_inbox_tool(args)`: all fields optional with defaults
`mailbox="INBOX"`, `limit=10`, `unread_only=False`; the limit is clamped
to `MAX_EMAILS` by `min(...)`; the body runs under `tryExcept`. -/
def read_inbox_tool (env : Env) (args : Args) :
    Except PyError (List String) × List Call :=
  let mailbox := optStr args "mailbox" "INBOX"
  let limit := min (optInt args "limit" 10) env.maxEmails
  let unread_only := optBool args "unread_only" false
  tryExcept "[ERROR] Failed to read inbox: "
    (read_inbox_run env mailbox limit unread_only)

/-- Body of `search_emails_tool`'s `try` block: the free-text term is
always a `subject:` filter; listing is capped at the clamped limit. -/
def search_emails_run (env : Env) (query mailbox : String) (limit : Int) :
    Except PyError (List String) × List Call :=
  match env.svc with
  | .error e => (.error e, [])
  | .ok _ =>
    let search_query := "in:" ++ mailbox.toLower ++ " subject:" ++ query
    let req : ListRequest := ⟨search_query, some limit⟩
    match env.listResult req with
    | .error e => (.error e, [.list req])
    | .ok ids =>
      if ids.isEmpty then
        (.ok ["No emails found matching \x27" ++ query ++ "\x27"],
         [.list req])
      else
        match fetchAll env ids with
        | (.error e, tr) => (.error e, .list req :: tr)
        | (.ok emails, tr) =>
          (.ok ["Found " ++ toString emails.length ++
                " email(s) matching \x27" ++ query ++ "\x27:\n\n" ++
                renderFrom renderSearchEmail 1 emails],
           .list req :: tr)

/-- `search_emails_tool(args)`: the required field `query` is read before
the `try` block (missing → uncaught `KeyError`); `mailbox` and `limit`
are optional with defaults, the limit clamped to `MAX_EMAILS`. -/
def search_emails_tool (env : Env) (args : Args) :
    Except PyError (List String) × List Call :=
  match reqStr args "query" with
  | .error e => (.error e, [])
  | .ok query =>
    let mailbox := optStr args "mailbox" "INBOX"
    let limit := min (optInt args "limit" 10) env.maxEmails
    tryExcept "[ERROR] Failed to search: "
      (search_emails_run env query mailbox limit)

/-- The `for msg in messages:` modify loop of `mark_as_read_tool`: one
`modify(removeLabelIds=['UNREAD'])` call per listed id, sequentially; the
first raised error aborts the loop. -/
def modifyLoop (env : Env) : List String →
    Except PyError Unit × List Call
  | [] => (.ok (), [])
  | mid :: rest =>
    match env.modifyResult mid with
    | .error e => (.error e, [.modify mid])
    | .ok _ =>
      match modifyLoop env rest with
      | (r, tr) => (r, .modify mid :: tr)

/-- Body of `mark_as_read_tool`'s `try` block: list unread matches (note:
no `maxResults` argument), report when there are none, otherwise modify
each and report the count. -/
def mark_as_read_run (env : Env) (subject mailbox : String) :
    Except PyError (List String) × List Call :=
  match env.svc with
  | .error e => (.error e, [])
  | .ok _ =>
    let query := "in:" ++ mailbox.toLower ++ " is:unread subject:" ++ subject
    let req : ListRequest := ⟨query, none⟩
    match env.listResult req with
    | .error e => (.error e, [.list req])
    | .ok ids =>
      if ids.isEmpty then
        (.ok ["No unread emails found with subject \x27" ++ subject ++ "\x27"],
         [.list req])
      else
        match modifyLoop env ids with
        | (.error e, tr) => (.error e, .list req :: tr)
        | (.ok _, tr) =>
          (.ok ["Marked " ++ toString ids.length ++ " email(s) as read"],
           .list req :: tr)

/-- `mark_as_read_tool(args)`: the required field `subject` is read before
the `try` block (missing → uncaught `KeyError`). -/
def mark_as_read_tool (env : Env) (args : Args) :
    Except PyError (List String) × List Call :=
  match reqStr args "subject" with
  | .error e => (.error e, [])
  | .ok subject =>
    let mailbox := optStr args "mailbox" "INBOX"
    tryExcept "[ERROR] Failed to mark as read: "
      (mark_as_read_run env subject mailbox)

/-- `call_tool(name, arguments)`: dispatch by name; an unregistered name
raises `ValueError(f"Unknown tool: {name}")`. -/
def call_tool (env : Env) (name : String) (args : Args) :
    Except PyError (List String) × List Call :=
  if name = "send_email" then send_email_tool env args
  else if name = "read_inbox" then read_inbox_tool env args
  else if name = "search_emails" then search_emails_tool env args
  else if name = "mark_as_read" then mark_as_read_tool env args
  else (.error (.valueError ("Unknown tool: " ++ name)), [])

/-- OAuth credentials as observed by `get_gmail_service`
(`google.oauth2.credentials.Credentials`): the `valid` / `expired` flags
and the optional refresh token. -/
structure Creds where
  valid : Bool
  expired : Bool
  refresh_token : Option String
deriving DecidableEq, Repr

/-- Python truthiness of `creds.refresh_token`: `None` and `""` are
falsy. -/
def hasRefreshToken (c : Creds) : Bool :=
  match c.refresh_token with
  | some r => r != ""
  | none => false

/-- The `build('gmail', 'v1', credentials=creds)` handle, bound to the
credentials it was built from. -/
structure Service where
  creds : Creds
deriving DecidableEq, Repr

/-- An externally observable action of `get_gmail_service`: a refresh
round-trip, an interactive consent flow, or a token-file write. -/
inductive AuthCall where
  | refresh
  | flow
  | saveToken
deriving DecidableEq, Repr

/-- The number of network/interactive authorization round-trips in a
trace of `AuthCall`s. -/
def authRoundTrips (calls : List AuthCall) : Nat :=
  (calls.filter (fun c => c == .refresh || c == .flow)).length

/-- The environment `get_gmail_service` runs against: whether the token
file and the credentials artifact exist, the outcome of loading the token
(`Credentials.from_authorized_user_file`, which raises on corrupt data),
of `creds.refresh(Request())`, and of the interactive flow
(`flow.run_local_server(port=0)`). -/
structure AuthEnv where
  tokenFileExists : Bool
  loadResult : Except PyError Creds
  refreshResult : Except PyError Creds
  credsFileExists : Bool
  credsPath : String
  flowResult : Except PyError Creds

/-- The `FileNotFoundError` message raised when the credentials artifact
is absent. -/
def missingCredsMsg (credsPath : String) : String :=
  "credentials.json not found at " ++ credsPath ++
    "\nDownload from Google Cloud Console: https://console.cloud.google.com/apis/credentials"

/-- The `else:` branch of the token acquisition: require the credentials
artifact, run the interactive consent flow; on success the new token is
saved and the service built. -/
def runInteractiveFlow (env : AuthEnv) :
    Except PyError Service × Option Service × List AuthCall :=
  if !env.credsFileExists then
    (.error (.exn (missingCredsMsg env.credsPath)), none, [])
  else
    match env.flowResult with
    | .error e => (.error e, none, [.flow])
    | .ok c => (.ok ⟨c⟩, some ⟨c⟩, [.flow, .saveToken])

/-- `get_gmail_service()`: returns the module-global cached service if
set (`if _gmail_service: return _gmail_service`); otherwise loads the
persisted token, refreshes it when expired-but-refreshable, or runs the
interactive flow, saves the new token, builds the service, and caches it.
Result: (returned value or raised error, new cache, issued calls). -/
def get_gmail_service (env : AuthEnv) (cache : Option Service) :
    Except PyError Service × Option Service × List AuthCall :=
  match cache with
  | some s => (.ok s, some s, [])
  | none =>
    match (if env.tokenFileExists then env.loadResult.map some
           else .ok none : Except PyError (Option Creds)) with
    | .error e => (.error e, none, [])
    | .ok credsOpt =>
      match credsOpt with
      | some c =>
        if c.valid then
          (.ok ⟨c⟩, some ⟨c⟩, [])
        else if c.expired && hasRefreshToken c then
          match env.refreshResult with
          | .error e => (.error e, none, [.refresh])
          | .ok c2 => (.ok ⟨c2⟩, some ⟨c2⟩, [.refresh, .saveToken])
        else
          runInteractiveFlow env
      | none => runInteractiveFlow env

/-- One primitive file-system step of `token_path.write_text(data)`:
opening with mode `'w'` truncates the file, then the content is written. -/
inductive WriteStep where
  | truncate
  | writeAll (s : String)
deriving DecidableEq, Repr

/-- Effect of one write step on the file contents (`none` = absent). -/
def applyStep : Option String → WriteStep → Option String
  | _, .truncate => some ""
  | _, .writeAll s => some s

/-- `token_path.write_text(data)` (line 85 of the source) as its
primitive step sequence: truncate, then write the full serialized
record. -/
def saveSteps (data : String) : List WriteStep :=
  [.truncate, .writeAll data]

/-- Run a sequence of write steps against the current file contents. -/
def runSteps (file : Option String) (steps : List WriteStep) : Option String :=
  steps.foldl applyStep file

/-- The file contents observable if the process crashes after `k` steps
of a save, for each `k` from `0` to all steps. -/
def crashStates (old data : String) : List (Option String) :=
  (List.range (saveSteps data).length.succ).map
    (fun k => runSteps (some old) ((saveSteps data).take k))

/-- Modelled from the claim's words, for comparison with the code's
`saveSteps`: the save is atomic with respect to a crash between
write-begin and write-complete iff at every crash point the file holds
either the previously stored record or the new one. -/
def saveIsCrashAtomic : Prop :=
  ∀ old data : String, ∀ st ∈ crashStates old data,
    st = some old ∨ st = some data

/-! ### Concrete environments and inputs used by witnesses -/

/-- A benign environment: service available, every remote call succeeds,
the listing is empty, `MAX_EMAILS = 50` (the source default), decoding is
the identity. -/
def okEnv : Env where
  svc := .ok ()
  maxEmails := 50
  encodeRaw := fun _ _ _ => "RAW"
  listResult := fun _ => .ok []
  getResult := fun _ => .error (.exn "no such message")
  sendResult := fun _ => .ok ()
  modifyResult := fun _ => .ok ()
  decode := fun s => some s

/-- An environment in which `get_gmail_service()` raises (e.g. a
`RemoteCallError`-style network failure during authorization). -/
def downEnv : Env :=
  { okEnv with svc := .error (.exn "network unreachable") }

/-- An environment whose listing returns three message ids while
`MAX_EMAILS` is 2, so a listing may exceed the per-request cap. -/
def threeEnv : Env :=
  { okEnv with
    maxEmails := 2
    listResult := fun _ => .ok ["m1", "m2", "m3"] }

/-- An authorizer environment holding a valid, unexpired persisted
token. -/
def validTokenAuthEnv : AuthEnv where
  tokenFileExists := true
  loadResult := .ok ⟨true, false, some "rt"⟩
  refreshResult := .error (.exn "refresh not attempted")
  credsFileExists := false
  credsPath := "/cfg/credentials.json"
  flowResult := .error (.exn "flow not attempted")

/-- A part of MIME type `text/html`, carrying encoded data. -/
def htmlPart : MessagePart :=
  .mk (some "text/html") (some ⟨some "PHA+eDwvcD4="⟩) []

/-- A `text/plain` part whose data "decodes" (under an identity-style
decoder) to text with surrounding whitespace. -/
def plainPart : MessagePart :=
  .mk (some "text/plain") (some ⟨some " hello body "⟩) []

/-- A multipart message: an HTML part followed by a plain-text part,
with all four declared headers present. -/
def sampleMsg : GmailMessage :=
  ⟨"id1",
   ⟨[⟨"From", "a@example.com"⟩, ⟨"To", "b@example.com"⟩,
     ⟨"Subject", "Hi"⟩, ⟨"Date", "today"⟩],
    some [htmlPart, plainPart], none⟩⟩

/-- A decoder that fails exactly on `"_w=="` — the URL-safe base64 of
the single byte `0xFF`, whose `.decode()` raises `UnicodeDecodeError`
in the source — and is the identity elsewhere. -/
def badDecode : String → Option String :=
  fun s => if s = "_w==" then none else some s

/-- A message with no `parts` array whose direct body data is `"_w=="`
(undecodable): the fallback decode raises. -/
def fallbackBadMsg : GmailMessage :=
  ⟨"m1", ⟨[], none, some ⟨some "_w=="⟩⟩⟩

/-- A message whose only part is `text/plain` but whose `body` object
lacks the `data` key. -/
def noDataPlainMsg : GmailMessage :=
  ⟨"m2", ⟨[], some [.mk (some "text/plain") (some ⟨none⟩) []], none⟩⟩

/-! ### Helper lemmas -/

theorem tryExcept_trace (pre : String)
    (r : Except PyError (List String) × List Call) :
    (tryExcept pre r).2 = r.2 := by
  rcases r with ⟨res, tr⟩
  cases res <;> rfl

theorem tryExcept_error (pre : String)
    (r : Except PyError (List String) × List Call) (e : PyError)
    (tr : List Call) (h : r = (.error e, tr)) :
    tryExcept pre r = (.ok [pre ++ pyStr e], tr) := by
  subst h; rfl

theorem tryExcept_ok (pre : String)
    (r : Except PyError (List String) × List Call) (t : List String)
    (tr : List Call) (h : r = (.ok t, tr)) :
    tryExcept pre r = (.ok t, tr) := by
  subst h; rfl

theorem get?_set (a : Args) (k k' : String) (v : Value) :
    Args.get? (Args.set a k v) k' =
      if k = k' then some v else Args.get? a k' := by
  simp only [Args.set, Args.get?, List.find?]
  by_cases h : k = k'
  · simp [h]
  · rw [if_neg h]
    have hbeq : (k == k') = false := by simpa using h
    simp [hbeq]

theorem modifyLoop_all_ok (env : Env) (ids : List String)
    (h : ∀ mid ∈ ids, env.modifyResult mid = .ok ()) :
    modifyLoop env ids = (.ok (), ids.map Call.modify) := by
  induction ids with
  | nil => rfl
  | cons mid rest ih =>
    simp only [modifyLoop, h mid (by simp),
      ih (fun m hm => h m (by simp [hm])), List.map]

theorem modifyCalls_nil : modifyCalls [] = [] := rfl

theorem modifyCalls_list_cons (req : ListRequest) (tr : List Call) :
    modifyCalls (Call.list req :: tr) = modifyCalls tr := by
  simp [modifyCalls]

theorem modifyCalls_map_modify (ids : List String) :
    modifyCalls (ids.map Call.modify) = ids := by
  induction ids with
  | nil => rfl
  | cons a l ih => simpa [modifyCalls] using ih

theorem read_inbox_run_head (env : Env) (mailbox : String) (limit : Int)
    (unread_only : Bool) (hsvc : env.svc = .ok ()) :
    (read_inbox_run env mailbox limit unread_only).2.head? =
      some (.list ⟨"in:" ++ mailbox.toLower ++
        (if unread_only then " is:unread" else ""), some limit⟩) := by
  simp only [read_inbox_run, hsvc]
  split
  · rfl
  · split
    · rfl
    · split <;> rfl

theorem search_emails_run_head (env : Env) (query mailbox : String)
    (limit : Int) (hsvc : env.svc = .ok ()) :
    (search_emails_run env query mailbox limit).2.head? =
      some (.list ⟨"in:" ++ mailbox.toLower ++ " subject:" ++ query,
        some limit⟩) := by
  simp only [search_emails_run, hsvc]
  split
  · rfl
  · split
    · rfl
    · split <;> rfl

theorem mark_as_read_run_head (env : Env) (subject mailbox : String)
    (hsvc : env.svc = .ok ()) :
    (mark_as_read_run env subject mailbox).2.head? =
      some (.list ⟨"in:" ++ mailbox.toLower ++ " is:unread subject:" ++
        subject, none⟩) := by
  simp only [mark_as_read_run, hsvc]
  split
  · rfl
  · split
    · rfl
    · split <;> rfl

/-- The effective `min`-clamped limit of `read_inbox_tool` and
`search_emails_tool` when a limit argument is supplied. -/
theorem optInt_of_get (args : Args) (k : String) (d l : Int)
    (h : Args.get? args k = some (.int l)) : optInt args k d = l := by
  simp [optInt, h]

/-- C5: for every `read_inbox` or `search_emails` call whose `limit`
argument exceeds `MAX_EMAILS`, the `maxResults` of the issued listing
request is exactly `MAX_EMAILS`, and the handler behaves identically to a
call with `limit` set to exactly `MAX_EMAILS` (clamp, not rejection). -/
theorem limit_clamped_to_max (env : Env) (args : Args) (l : Int)
    (hl : Args.get? args "limit" = some (.int l))
    (hge : env.maxEmails ≤ l) :
    (env.svc = .ok () →
      (read_inbox_tool env args).2.head? =
        some (.list ⟨"in:" ++ (optStr args "mailbox" "INBOX").toLower ++
          (if optBool args "unread_only" false then " is:unread" else ""),
          some env.maxEmails⟩)) ∧
    (∀ q, Args.get? args "query" = some (.str q) → env.svc = .ok () →
      (search_emails_tool env args).2.head? =
        some (.list ⟨"in:" ++ (optStr args "mailbox" "INBOX").toLower ++
          " subject:" ++ q, some env.maxEmails⟩)) ∧
    read_inbox_tool env args =
      read_inbox_tool env (Args.set args "limit" (.int env.maxEmails)) ∧
    search_emails_tool env args =
      search_emails_tool env (Args.set args "limit" (.int env.maxEmails)) := by
  have hoi : optInt args "limit" 10 = l := optInt_of_get args "limit" 10 l hl
  have hmin : min (optInt args "limit" 10) env.maxEmails = env.maxEmails := by
    rw [hoi]; exact min_eq_right hge
  have hset_limit :
      optInt (Args.set args "limit" (.int env.maxEmails)) "limit" 10 =
        env.maxEmails := by
    simp [optInt, get?_set]
  have hset_mb :
      optStr (Args.set args "limit" (.int env.maxEmails)) "mailbox" "INBOX" =
        optStr args "mailbox" "INBOX" := by
    rw [optStr, get?_set, if_neg (by decide)]; rfl
  have hset_ub :
      optBool (Args.set args "limit" (.int env.maxEmails)) "unread_only"
          false = optBool args "unread_only" false := by
    rw [optBool, get?_set, if_neg (by decide)]; rfl
  have hset_q :
      Args.get? (Args.set args "limit" (.int env.maxEmails)) "query" =
        Args.get? args "query" := by
    rw [get?_set, if_neg (by decide)]
  refine ⟨?_, ?_, ?_, ?_⟩
  · intro hsvc
    simp only [read_inbox_tool]
    rw [tryExcept_trace, hmin]
    exact read_inbox_run_head env _ _ _ hsvc
  · intro q hq hsvc
    simp only [search_emails_tool, reqStr, hq]
    rw [tryExcept_trace, hmin]
    exact search_emails_run_head env q _ _ hsvc
  · simp only [read_inbox_tool, hset_mb, hset_ub, hset_limit, hmin, min_self]
  · simp only [search_emails_tool, reqStr, hset_q, hset_mb, hset_limit,
      hmin, min_self]

/-- Witness for `limit_clamped_to_max` at `limit = 100` against a benign
environment with `MAX_EMAILS = 50`. -/
theorem limit_clamped_to_max_witness :
    Args.get? [("limit", Value.int 100)] "limit" = some (.int 100) ∧
    okEnv.maxEmails ≤ (100 : Int) ∧
    (okEnv.svc = .ok () →
      (read_inbox_tool okEnv [("limit", Value.int 100)]).2.head? =
        some (.list ⟨"in:" ++
          (optStr [("limit", Value.int 100)] "mailbox" "INBOX").toLower ++
          (if optBool [("limit", Value.int 100)] "unread_only" false
           then " is:unread" else ""),
          some okEnv.maxEmails⟩)) := by
  refine ⟨rfl, by decide, ?_⟩
  exact (limit_clamped_to_max okEnv [("limit", Value.int 100)] 100 rfl
    (by decide)).1

theorem mark_as_read_run_ok (env : Env) (subject mailbox : String)
    (ids : List String) (hsvc : env.svc = .ok ())
    (hlist : env.listResult ⟨"in:" ++ mailbox.toLower ++
      " is:unread subject:" ++ subject, none⟩ = .ok ids)
    (hmod : ∀ mid ∈ ids, env.modifyResult mid = .ok ()) :
    mark_as_read_run env subject mailbox =
      if ids.isEmpty then
        (.ok ["No unread emails found with subject \x27" ++ subject ++
          "\x27"],
         [.list ⟨"in:" ++ mailbox.toLower ++ " is:unread subject:" ++
           subject, none⟩])
      else
        (.ok ["Marked " ++ toString ids.length ++ " email(s) as read"],
         .list ⟨"in:" ++ mailbox.toLower ++ " is:unread subject:" ++
           subject, none⟩ :: ids.map Call.modify) := by
  simp only [mark_as_read_run, hsvc, hlist]
  by_cases hi : ids.isEmpty
  · simp [hi]
  · simp only [hi, if_false, modifyLoop_all_ok env ids hmod]

theorem mark_as_read_tool_eq (env : Env) (args : Args) (subject : String)
    (hsub : Args.get? args "subject" = some (.str subject)) :
    mark_as_read_tool env args =
      tryExcept "[ERROR] Failed to mark as read: "
        (mark_as_read_run env subject (optStr args "mailbox" "INBOX")) := by
  simp only [mark_as_read_tool, reqStr, hsub]

/-- C6: a `mark_as_read` call whose unread-matching search returns the
identifiers `ids` issues exactly one modify call per identifier (in
listing order) and reports the count; an empty match is a success
result — its text does not carry the `[ERROR]` marker — with zero
modify calls. -/
theorem mark_as_read_modify_counts (env : Env) (args : Args)
    (subject : String) (ids : List String)
    (hsub : Args.get? args "subject" = some (.str subject))
    (hsvc : env.svc = .ok ())
    (hlist : env.listResult ⟨"in:" ++
      (optStr args "mailbox" "INBOX").toLower ++ " is:unread subject:" ++
      subject, none⟩ = .ok ids)
    (hmod : ∀ mid ∈ ids, env.modifyResult mid = .ok ()) :
    modifyCalls (mark_as_read_tool env args).2 = ids ∧
    (ids ≠ [] → (mark_as_read_tool env args).1 =
      .ok ["Marked " ++ toString ids.length ++ " email(s) as read"]) ∧
    (ids = [] →
      (mark_as_read_tool env args).1 =
        .ok ["No unread emails found with subject \x27" ++ subject ++
          "\x27"] ∧
      modifyCalls (mark_as_read_tool env args).2 = [] ∧
      ∀ rest, ("No unread emails found with subject \x27" ++ subject ++
        "\x27") ≠ "[ERROR]" ++ rest) := by
  rw [mark_as_read_tool_eq env args subject hsub,
    mark_as_read_run_ok env subject (optStr args "mailbox" "INBOX") ids
      hsvc hlist hmod]
  by_cases hi : ids.isEmpty
  · rw [if_pos hi]
    have hids : ids = [] := List.isEmpty_iff.mp hi
    subst hids
    refine ⟨rfl, fun h => absurd rfl h, fun _ => ⟨rfl, rfl, ?_⟩⟩
    intro rest heq
    have h1 : (("No unread emails found with subject \x27" ++ subject ++
        "\x27" : String)).data.head? = some 'N' := by
      rw [String.data_append]; rfl
    rw [heq] at h1
    have h2 : (("[ERROR]" ++ rest : String)).data.head? = some '[' := rfl
    rw [h2] at h1
    exact absurd h1 (by decide)
  · rw [if_neg hi]
    have hids : ids ≠ [] := by
      intro h; rw [h] at hi; exact hi rfl
    refine ⟨?_, fun _ => rfl, fun h => absurd h hids⟩
    show modifyCalls (Call.list _ :: ids.map Call.modify) = ids
    rw [modifyCalls_list_cons, modifyCalls_map_modify]

/-- Witness for `mark_as_read_modify_counts`: three unread matches
against `threeEnv` yield exactly the three modify calls and the
"Marked 3 email(s) as read" report. -/
theorem mark_as_read_modify_counts_witness :
    Args.get? [("subject", Value.str "Invoice")] "subject" =
      some (.str "Invoice") ∧
    threeEnv.svc = .ok () ∧
    threeEnv.listResult ⟨"in:" ++
      (optStr [("subject", Value.str "Invoice")] "mailbox"
        "INBOX").toLower ++ " is:unread subject:" ++ "Invoice", none⟩ =
      .ok ["m1", "m2", "m3"] ∧
    modifyCalls
        (mark_as_read_tool threeEnv [("subject", Value.str "Invoice")]).2 =
      ["m1", "m2", "m3"] ∧
    (mark_as_read_tool threeEnv [("subject", Value.str "Invoice")]).1 =
      .ok ["Marked " ++ toString (["m1", "m2", "m3"].length) ++
        " email(s) as read"] := by
  have h := mark_as_read_modify_counts threeEnv
    [("subject", Value.str "Invoice")] "Invoice" ["m1", "m2", "m3"]
    rfl rfl rfl (fun mid _ => rfl)
  exact ⟨rfl, rfl, rfl, h.1, h.2.1 (by decide)⟩

/-- C9: the `mark_as_read` listing request carries no `maxResults`
(`maxResults = none`), and every listed identifier receives a modify
call even when the match count exceeds `MAX_EMAILS`; the `MAX_EMAILS`
cap appears only in the `read_inbox` and `search_emails` listing
requests. -/
theorem mark_as_read_listing_unbounded (env : Env) (args : Args) :
    (∀ subject, Args.get? args "subject" = some (.str subject) →
      env.svc = .ok () →
      (mark_as_read_tool env args).2.head? =
        some (.list ⟨"in:" ++ (optStr args "mailbox" "INBOX").toLower ++
          " is:unread subject:" ++ subject, none⟩)) ∧
    (∀ subject ids, Args.get? args "subject" = some (.str subject) →
      env.svc = .ok () →
      env.listResult ⟨"in:" ++ (optStr args "mailbox" "INBOX").toLower ++
        " is:unread subject:" ++ subject, none⟩ = .ok ids →
      (∀ mid ∈ ids, env.modifyResult mid = .ok ()) →
      env.maxEmails < (ids.length : Int) →
      modifyCalls (mark_as_read_tool env args).2 = ids) ∧
    (env.svc = .ok () →
      (read_inbox_tool env args).2.head? =
        some (.list ⟨"in:" ++ (optStr args "mailbox" "INBOX").toLower ++
          (if optBool args "unread_only" false then " is:unread" else ""),
          some (min (optInt args "limit" 10) env.maxEmails)⟩)) ∧
    (∀ q, Args.get? args "query" = some (.str q) → env.svc = .ok () →
      (search_emails_tool env args).2.head? =
        some (.list ⟨"in:" ++ (optStr args "mailbox" "INBOX").toLower ++
          " subject:" ++ q,
          some (min (optInt args "limit" 10) env.maxEmails)⟩)) := by
  refine ⟨?_, ?_, ?_, ?_⟩
  · intro subject hsub hsvc
    rw [mark_as_read_tool_eq env args subject hsub, tryExcept_trace]
    exact mark_as_read_run_head env subject _ hsvc
  · intro subject ids hsub hsvc hlist hmod _
    rw [mark_as_read_tool_eq env args subject hsub,
      mark_as_read_run_ok env subject (optStr args "mailbox" "INBOX") ids
        hsvc hlist hmod]
    by_cases hi : ids.isEmpty
    · rw [if_pos hi]
      have hids : ids = [] := List.isEmpty_iff.mp hi
      subst hids
      rfl
    · rw [if_neg hi]
      show modifyCalls (Call.list _ :: ids.map Call.modify) = ids
      rw [modifyCalls_list_cons, modifyCalls_map_modify]
  · intro hsvc
    simp only [read_inbox_tool]
    rw [tryExcept_trace]
    exact read_inbox_run_head env _ _ _ hsvc
  · intro q hq hsvc
    simp only [search_emails_tool, reqStr, hq]
    rw [tryExcept_trace]
    exact search_emails_run_head env q _ _ hsvc

/-- Witness for `mark_as_read_listing_unbounded`: against `threeEnv`
(`MAX_EMAILS = 2`, three unread matches) all three ids are modified and
the listing request carries no limit. -/
theorem mark_as_read_listing_unbounded_witness :
    Args.get? [("subject", Value.str "Invoice")] "subject" =
      some (.str "Invoice") ∧
    threeEnv.svc = .ok () ∧
    threeEnv.maxEmails < ((["m1", "m2", "m3"] : List String).length : Int) ∧
    modifyCalls
        (mark_as_read_tool threeEnv [("subject", Value.str "Invoice")]).2 =
      ["m1", "m2", "m3"] ∧
    (mark_as_read_tool threeEnv [("subject", Value.str "Invoice")]).2.head? =
      some (.list ⟨"in:" ++
        (optStr [("subject", Value.str "Invoice")] "mailbox"
          "INBOX").toLower ++ " is:unread subject:" ++ "Invoice", none⟩) := by
  have h := mark_as_read_listing_unbounded threeEnv
    [("subject", Value.str "Invoice")]
  exact ⟨rfl, rfl, by decide,
    h.2.1 "Invoice" ["m1", "m2", "m3"] rfl rfl rfl (fun mid _ => rfl)
      (by decide),
    h.1 "Invoice" rfl rfl⟩

theorem marker_prefix (tail : String) (e : PyError) (pre : String)
    (h : pre = "[ERROR]" ++ tail) :
    ∃ rest, pre ++ pyStr e = "[ERROR]" ++ rest := by
  exact ⟨tail ++ pyStr e, by rw [h, String.append_assoc]⟩

/-- C1: whenever a handler body (`try` block) raises — authorization,
storage, or remote-call failure — the dispatch of that tool returns a
single `.ok` result whose one text is the raised error's message behind
the `[ERROR]` marker; the raised error itself never crosses the dispatch
boundary. -/
theorem dispatch_catches_handler_errors (env : Env) (args : Args) :
    (∀ toA subject body e tr,
      Args.get? args "to" = some (.str toA) →
      Args.get? args "subject" = some (.str subject) →
      Args.get? args "body" = some (.str body) →
      send_email_run env toA subject body = (.error e, tr) →
      call_tool env "send_email" args =
        (.ok ["[ERROR] Failed to send email: " ++ pyStr e], tr) ∧
      ∃ rest, "[ERROR] Failed to send email: " ++ pyStr e =
        "[ERROR]" ++ rest) ∧
    (∀ e tr,
      read_inbox_run env (optStr args "mailbox" "INBOX")
        (min (optInt args "limit" 10) env.maxEmails)
        (optBool args "unread_only" false) = (.error e, tr) →
      call_tool env "read_inbox" args =
        (.ok ["[ERROR] Failed to read inbox: " ++ pyStr e], tr) ∧
      ∃ rest, "[ERROR] Failed to read inbox: " ++ pyStr e =
        "[ERROR]" ++ rest) ∧
    (∀ q e tr,
      Args.get? args "query" = some (.str q) →
      search_emails_run env q (optStr args "mailbox" "INBOX")
        (min (optInt args "limit" 10) env.maxEmails) = (.error e, tr) →
      call_tool env "search_emails" args =
        (.ok ["[ERROR] Failed to search: " ++ pyStr e], tr) ∧
      ∃ rest, "[ERROR] Failed to search: " ++ pyStr e =
        "[ERROR]" ++ rest) ∧
    (∀ subject e tr,
      Args.get? args "subject" = some (.str subject) →
      mark_as_read_run env subject (optStr args "mailbox" "INBOX") =
        (.error e, tr) →
      call_tool env "mark_as_read" args =
        (.ok ["[ERROR] Failed to mark as read: " ++ pyStr e], tr) ∧
      ∃ rest, "[ERROR] Failed to mark as read: " ++ pyStr e =
        "[ERROR]" ++ rest) := by
  refine ⟨?_, ?_, ?_, ?_⟩
  · intro toA subject body e tr hto hsub hbody hrun
    refine ⟨?_, marker_prefix " Failed to send email: " e _ (by decide)⟩
    show send_email_tool env args = _
    simp only [send_email_tool, reqStr, hto, hsub, hbody]
    exact tryExcept_error _ _ e tr hrun
  · intro e tr hrun
    refine ⟨?_, marker_prefix " Failed to read inbox: " e _ (by decide)⟩
    show read_inbox_tool env args = _
    simp only [read_inbox_tool]
    exact tryExcept_error _ _ e tr hrun
  · intro q e tr hq hrun
    refine ⟨?_, marker_prefix " Failed to search: " e _ (by decide)⟩
    show search_emails_tool env args = _
    simp only [search_emails_tool, reqStr, hq]
    exact tryExcept_error _ _ e tr hrun
  · intro subject e tr hsub hrun
    refine ⟨?_, marker_prefix " Failed to mark as read: " e _ (by decide)⟩
    show mark_as_read_tool env args = _
    simp only [mark_as_read_tool, reqStr, hsub]
    exact tryExcept_error _ _ e tr hrun

/-- Witness for `dispatch_catches_handler_errors`: against `downEnv`
(authorization failure) a `read_inbox` dispatch returns the single
`[ERROR]`-marked text instead of raising. -/
theorem dispatch_catches_handler_errors_witness :
    read_inbox_run downEnv (optStr [] "mailbox" "INBOX")
      (min (optInt [] "limit" 10) downEnv.maxEmails)
      (optBool [] "unread_only" false) =
      (.error (.exn "network unreachable"), []) ∧
    call_tool downEnv "read_inbox" [] =
      (.ok ["[ERROR] Failed to read inbox: " ++
        pyStr (.exn "network unreachable")], []) := by
  refine ⟨rfl, ?_⟩
  exact ((dispatch_catches_handler_errors downEnv []).2.1
    (.exn "network unreachable") [] rfl).1

/-- C2 counterexample: dispatching `send_email` with an empty argument
mapping does not yield a ValidationError string result — the unguarded
`args["to"]` raises `KeyError('to')`, which crosses the dispatch
boundary as a raised fault, and which is not the `UnknownTool`
`ValueError`. -/
theorem missing_field_crosses_dispatch_boundary :
    (call_tool okEnv "send_email" []).1 =
      .error (.keyError "to") ∧
    PyError.keyError "to" ≠
      PyError.valueError ("Unknown tool: " ++ "send_email") := by
  exact ⟨rfl, by decide⟩

/-- C2 (amended): a dispatch of a registered tool whose argument mapping
omits a required field raises a `KeyError` for that field, uncaught,
across the dispatch boundary (`send_email` without `to`, `search_emails`
without `query`, `mark_as_read` without `subject`); no tool issues a
remote call in that case. Only failures raised inside a handler's `try`
block are converted to `[ERROR]`-marked string results. -/
theorem missing_field_raises_uncaught (env : Env) (args : Args) :
    (Args.get? args "to" = none →
      call_tool env "send_email" args = (.error (.keyError "to"), [])) ∧
    (Args.get? args "query" = none →
      call_tool env "search_emails" args =
        (.error (.keyError "query"), [])) ∧
    (Args.get? args "subject" = none →
      call_tool env "mark_as_read" args =
        (.error (.keyError "subject"), [])) := by
  refine ⟨?_, ?_, ?_⟩
  · intro h
    show send_email_tool env args = _
    simp only [send_email_tool, reqStr, h]
  · intro h
    show search_emails_tool env args = _
    simp only [search_emails_tool, reqStr, h]
  · intro h
    show mark_as_read_tool env args = _
    simp only [mark_as_read_tool, reqStr, h]

/-- Witness for `missing_field_raises_uncaught` at the empty argument
mapping. -/
theorem missing_field_raises_uncaught_witness :
    Args.get? [] "subject" = none ∧
    call_tool okEnv "mark_as_read" [] =
      (.error (.keyError "subject"), []) := by
  exact ⟨rfl, (missing_field_raises_uncaught okEnv []).2.2 rfl⟩

theorem first_call_leaf (sv s : Service) (co c1 : Option Service)
    (L l1 : List AuthCall)
    (h : ((.ok sv : Except PyError Service), co, L) = (.ok s, c1, l1)) :
    s = sv ∧ c1 = co ∧ l1 = L := by
  injection h with h1 h2
  injection h2 with h2 h3
  exact ⟨(Except.ok.inj h1).symm, h2.symm, h3.symm⟩

theorem first_call_leaf_err (e : PyError) (s : Service)
    (co c1 : Option Service) (L l1 : List AuthCall)
    (h : ((.error e : Except PyError Service), co, L) = (.ok s, c1, l1)) :
    False := by
  injection h with h1 h2
  exact Except.noConfusion h1

theorem gs_first_call (env : AuthEnv) :
    ∀ s cache1 calls1,
      get_gmail_service env none = (.ok s, cache1, calls1) →
      cache1 = some s ∧ authRoundTrips calls1 ≤ 1 := by
  simp only [get_gmail_service, runInteractiveFlow]
  split
  all_goals try split
  all_goals try split
  all_goals try split
  all_goals try split
  all_goals try split
  all_goals intro s c1 l1 h
  all_goals first
    | exact (first_call_leaf_err _ _ _ _ _ _ h).elim
    | (obtain ⟨hs, hc, hl⟩ := first_call_leaf _ _ _ _ _ _ h
       subst hs; subst hc; subst hl
       exact ⟨rfl, by decide⟩)

/-- C4: `get_gmail_service` is idempotent and process-cached: a first
call from an empty cache that succeeds installs the returned service in
the cache; a second call against that cache returns the very same
service and performs no further call of any kind — in particular no
second network or interactive authorization round-trip — and the first
call itself performs at most one authorization round-trip. -/
theorem get_gmail_service_cached (env : AuthEnv) (s : Service)
    (cache1 : Option Service) (calls1 : List AuthCall)
    (h : get_gmail_service env none = (.ok s, cache1, calls1)) :
    cache1 = some s ∧
    get_gmail_service env cache1 = (.ok s, cache1, []) ∧
    authRoundTrips calls1 ≤ 1 := by
  have key := gs_first_call env s cache1 calls1 h
  refine ⟨key.1, ?_, key.2⟩
  rw [key.1]
  rfl

/-- Witness for `get_gmail_service_cached`: with a valid persisted token
the first call succeeds with no authorization round-trip and the second
call is served from the cache. -/
theorem get_gmail_service_cached_witness :
    get_gmail_service validTokenAuthEnv none =
      (.ok ⟨⟨true, false, some "rt"⟩⟩,
       some ⟨⟨true, false, some "rt"⟩⟩, []) ∧
    get_gmail_service validTokenAuthEnv
        (some ⟨⟨true, false, some "rt"⟩⟩) =
      (.ok ⟨⟨true, false, some "rt"⟩⟩,
       some ⟨⟨true, false, some "rt"⟩⟩, []) ∧
    authRoundTrips [] ≤ 1 := by
  refine ⟨rfl, ?_, ?_⟩
  · have h := get_gmail_service_cached validTokenAuthEnv
      ⟨⟨true, false, some "rt"⟩⟩ (some ⟨⟨true, false, some "rt"⟩⟩) [] rfl
    exact h.2.1
  · exact (get_gmail_service_cached validTokenAuthEnv
      ⟨⟨true, false, some "rt"⟩⟩ (some ⟨⟨true, false, some "rt"⟩⟩) []
      rfl).2.2

/-- C3 counterexample: the save is not crash-atomic. Concretely, saving
the new record `"B"` over the stored record `"A"` passes through the
crash state reached after the truncation step, where the file holds
`""` — neither the old record nor the new one, so the previously stored
record is corrupted and no longer loadable. -/
theorem save_not_crash_atomic :
    runSteps (some "A") ((saveSteps "B").take 1) = some "" ∧
    (some "" : Option String) ≠ some "A" ∧
    (some "" : Option String) ≠ some "B" ∧
    ¬ saveIsCrashAtomic := by
  refine ⟨rfl, by decide, by decide, ?_⟩
  intro hat
  have h := hat "A" "B" (some "") (by decide)
  rcases h with h | h
  · exact absurd h (by decide)
  · exact absurd h (by decide)

/-- C3 (amended): `save` writes the token file with a plain
truncate-then-write (`Path.write_text`), which is not atomic with
respect to a process crash between write-begin and write-complete: for
every non-empty old and new record there is a crash state in which the
file holds neither, so the previously stored record does not remain
loadable; only a save that runs to completion leaves the new record. -/
theorem save_truncates_then_writes (old data : String)
    (hold : old ≠ "") (hdata : data ≠ "") :
    (∃ st ∈ crashStates old data, st ≠ some old ∧ st ≠ some data) ∧
    runSteps (some old) (saveSteps data) = some data := by
  refine ⟨⟨some "", ?_, ?_, ?_⟩, rfl⟩
  · exact List.mem_map.mpr ⟨1, List.mem_range.mpr (by simp [saveSteps]), rfl⟩
  · intro h
    exact hold (Option.some.inj h).symm
  · intro h
    exact hdata (Option.some.inj h).symm

/-- Witness for `save_truncates_then_writes` at the records `"A"`,
`"B"`. -/
theorem save_truncates_then_writes_witness :
    ("A" : String) ≠ "" ∧ ("B" : String) ≠ "" ∧
    ((∃ st ∈ crashStates "A" "B", st ≠ some "A" ∧ st ≠ some "B") ∧
      runSteps (some "A") (saveSteps "B") = some "B") := by
  exact ⟨by decide, by decide,
    save_truncates_then_writes "A" "B" (by decide) (by decide)⟩

theorem scanParts_skip_not_plain (decode : String → Option String)
    (pre : List MessagePart) (p : MessagePart) (rest : List MessagePart)
    (hpre : ∀ q ∈ pre, ∃ m, q.mimeType = some m ∧ m ≠ "text/plain") :
    scanParts decode (pre ++ p :: rest) = scanParts decode (p :: rest) := by
  induction pre with
  | nil => rfl
  | cons q pre ih =>
    obtain ⟨m, hm, hne⟩ := hpre q (by simp)
    simp only [List.cons_append, scanParts, hm]
    rw [if_neg hne]
    exact ih (fun q2 hq2 => hpre q2 (by simp [hq2]))

theorem scanParts_plain_head (decode : String → Option String)
    (p : MessagePart) (rest : List MessagePart) (d t : String)
    (hmt : p.mimeType = some "text/plain")
    (hb : p.body = some ⟨some d⟩) (hd : decode d = some t) :
    scanParts decode (p :: rest) = .ok t := by
  simp [scanParts, hmt, hb, hd]

theorem scanParts_no_plain (decode : String → Option String)
    (ps : List MessagePart)
    (h : ∀ q ∈ ps, ∃ m, q.mimeType = some m ∧ m ≠ "text/plain") :
    scanParts decode ps = .ok "" := by
  induction ps with
  | nil => rfl
  | cons q ps ih =>
    obtain ⟨m, hm, hne⟩ := h q (by simp)
    simp only [scanParts, hm]
    rw [if_neg hne]
    exact ih (fun x hx => h x (by simp [hx]))

theorem parse_body_of_extract (decode : String → Option String)
    (msg : GmailMessage) (b : String)
    (h : extractBody decode msg.payload = .ok b) :
    (parse_gmail_message decode msg).map ParsedMessage.body =
      .ok (pyStrip b) := by
  simp [parse_gmail_message, h, Except.map]

theorem scanParts_depth_one (decode : String → Option String) :
    ∀ ps ps' : List MessagePart,
      ps.map MessagePart.topView = ps'.map MessagePart.topView →
      scanParts decode ps = scanParts decode ps' := by
  intro ps
  induction ps with
  | nil =>
    intro ps' h
    cases ps' with
    | nil => rfl
    | cons q' tl => simp at h
  | cons q ps ih =>
    intro ps' h
    cases ps' with
    | nil => simp at h
    | cons q' tl =>
      simp only [List.map] at h
      injection h with h1 h2
      have hmt : q.mimeType = q'.mimeType := congrArg Prod.fst h1
      have hbd : q.body = q'.body := congrArg Prod.snd h1
      simp only [scanParts, hmt, hbd, ih tl h2]

/-- C7: the normalizer's body extraction takes the decoded (and
stripped) text of the first `text/plain` part in a depth-one scan of
the parts array — nested parts never influence the scan, and a parts
array without a `text/plain` entry yields an empty body; with no parts
array it falls back to the single-part body data; and a message with no
parts and no direct body data normalizes to a record with an empty body
string, not an error. -/
theorem normalizer_body_extraction (decode : String → Option String)
    (msg : GmailMessage) :
    (∀ pre p rest d t,
      msg.payload.parts = some (pre ++ p :: rest) →
      (∀ q ∈ pre, ∃ m, q.mimeType = some m ∧ m ≠ "text/plain") →
      p.mimeType = some "text/plain" → p.body = some ⟨some d⟩ →
      decode d = some t →
      (parse_gmail_message decode msg).map ParsedMessage.body =
        .ok (pyStrip t)) ∧
    (∀ ps ps' : List MessagePart,
      ps.map MessagePart.topView = ps'.map MessagePart.topView →
      scanParts decode ps = scanParts decode ps') ∧
    (∀ ps, msg.payload.parts = some ps →
      (∀ q ∈ ps, ∃ m, q.mimeType = some m ∧ m ≠ "text/plain") →
      (parse_gmail_message decode msg).map ParsedMessage.body = .ok "") ∧
    (∀ pb d t, msg.payload.parts = none → msg.payload.body = some pb →
      pb.data = some d → decode d = some t →
      (parse_gmail_message decode msg).map ParsedMessage.body =
        .ok (pyStrip t)) ∧
    (msg.payload.parts = none →
      (msg.payload.body = none ∨ msg.payload.body = some ⟨none⟩) →
      parse_gmail_message decode msg =
        .ok ⟨msg.id, headerGet msg.payload.headers "From",
             headerGet msg.payload.headers "To",
             headerGet msg.payload.headers "Subject",
             headerGet msg.payload.headers "Date", ""⟩) := by
  refine ⟨?_, scanParts_depth_one decode, ?_, ?_, ?_⟩
  · intro pre p rest d t hparts hpre hmt hb hd
    have hex : extractBody decode msg.payload = .ok t := by
      simp only [extractBody, hparts,
        scanParts_skip_not_plain decode pre p rest hpre,
        scanParts_plain_head decode p rest d t hmt hb hd]
    exact parse_body_of_extract decode msg t hex
  · intro ps hparts hnone
    have hex : extractBody decode msg.payload = .ok "" := by
      simp only [extractBody, hparts, scanParts_no_plain decode ps hnone]
    have := parse_body_of_extract decode msg "" hex
    simpa [pyStrip] using this
  · intro pb d t hparts hbody hdata hdec
    have hex : extractBody decode msg.payload = .ok t := by
      simp [extractBody, hparts, hbody, hdata, hdec]
    exact parse_body_of_extract decode msg t hex
  · intro hparts hbody
    have hex : extractBody decode msg.payload = .ok "" := by
      rcases hbody with hbody | hbody <;> simp [extractBody, hparts, hbody]
    simp [parse_gmail_message, hex, pyStrip]

/-- Witness for `normalizer_body_extraction`: a multipart message whose
first `text/plain` part follows an HTML part normalizes to the stripped
decoded text of that plain part. -/
theorem normalizer_body_extraction_witness :
    sampleMsg.payload.parts = some ([htmlPart] ++ plainPart :: []) ∧
    plainPart.mimeType = some "text/plain" ∧
    badDecode " hello body " = some " hello body " ∧
    (parse_gmail_message badDecode sampleMsg).map ParsedMessage.body =
      .ok (pyStrip " hello body ") ∧
    pyStrip " hello body " = "hello body" := by
  refine ⟨rfl, rfl, rfl, ?_, by decide⟩
  exact (normalizer_body_extraction badDecode sampleMsg).1
    [htmlPart] plainPart [] " hello body " " hello body " rfl
    (by
      intro q hq
      simp only [List.mem_singleton] at hq
      exact ⟨"text/html", by rw [hq]; rfl, by decide⟩)
    rfl rfl rfl

/-- C8: the normalizer never truncates — a successfully parsed body is
the full decoded, whitespace-stripped text, whatever its length; the
fixed 200-character truncation lives only in `read_inbox_tool`'s
rendering (which depends on a body only through its first 200
characters); and `search_emails_tool`'s rendering contains no body at
all (it is invariant under any change of the body). -/
theorem normalizer_never_truncates (decode : String → Option String)
    (msg : GmailMessage) :
    (∀ pre p rest d t,
      msg.payload.parts = some (pre ++ p :: rest) →
      (∀ q ∈ pre, ∃ m, q.mimeType = some m ∧ m ≠ "text/plain") →
      p.mimeType = some "text/plain" → p.body = some ⟨some d⟩ →
      decode d = some t →
      (parse_gmail_message decode msg).map ParsedMessage.body =
        .ok (pyStrip t)) ∧
    (∀ i : Nat, ∀ e : ParsedMessage,
      renderInboxEmail i e =
        renderInboxEmail i { e with body := pySlice e.body 200 }) ∧
    (∀ i : Nat, ∀ e : ParsedMessage, ∀ b : String,
      renderSearchEmail i { e with body := b } = renderSearchEmail i e) := by
  refine ⟨?_, ?_, ?_⟩
  · intro pre p rest d t hparts hpre hmt hb hd
    have hex : extractBody decode msg.payload = .ok t := by
      simp only [extractBody, hparts,
        scanParts_skip_not_plain decode pre p rest hpre,
        scanParts_plain_head decode p rest d t hmt hb hd]
    exact parse_body_of_extract decode msg t hex
  · intro i e
    simp [renderInboxEmail, pySlice, List.take_take]
  · intro i e b
    rfl

/-- Witness for `normalizer_never_truncates`: the sample multipart
message keeps its full stripped body in the normalizer's output, and
the two rendering facts at a concrete index and record. -/
theorem normalizer_never_truncates_witness :
    sampleMsg.payload.parts = some ([htmlPart] ++ plainPart :: []) ∧
    (parse_gmail_message badDecode sampleMsg).map ParsedMessage.body =
      .ok (pyStrip " hello body ") ∧
    renderInboxEmail 1 ⟨"i", "f", "t", "s", "d", "b"⟩ =
      renderInboxEmail 1
        ⟨"i", "f", "t", "s", "d", pySlice "b" 200⟩ ∧
    renderSearchEmail 1 ⟨"i", "f", "t", "s", "d", "zzz"⟩ =
      renderSearchEmail 1 ⟨"i", "f", "t", "s", "d", "b"⟩ := by
  have h := normalizer_never_truncates badDecode sampleMsg
  refine ⟨rfl, ?_, ?_, ?_⟩
  · exact h.1 [htmlPart] plainPart [] " hello body " " hello body " rfl
      (by
        intro q hq
        simp only [List.mem_singleton] at hq
        exact ⟨"text/html", by rw [hq]; rfl, by decide⟩)
      rfl rfl rfl
  · exact h.2.1 1 ⟨"i", "f", "t", "s", "d", "b"⟩
  · exact h.2.2 1 ⟨"i", "f", "t", "s", "d", "b"⟩ "zzz"

/-- C10 counterexample: `fallbackBadMsg` satisfies the claim's stated
precondition (it has an id, a payload with a headers list, and — having
no parts array — vacuously satisfies both conditions on the parts
array), yet `parse_gmail_message` fails on it: the no-parts fallback
decodes the direct body data `"_w=="` (URL-safe base64 of the byte
`0xFF`), whose `.decode()` raises `UnicodeDecodeError`. -/
theorem parse_fails_inside_claimed_precondition :
    (∀ part ∈ fallbackBadMsg.payload.parts.getD [],
      part.mimeType ≠ none) ∧
    (∀ part ∈ fallbackBadMsg.payload.parts.getD [],
      part.mimeType = some "text/plain" →
      ∃ d t, part.body = some ⟨some d⟩ ∧ badDecode d = some t) ∧
    (parse_gmail_message badDecode fallbackBadMsg).isOk = false := by
  refine ⟨?_, ?_, rfl⟩ <;>
    · intro part hmem
      simp [fallbackBadMsg] at hmem

theorem scanParts_total (decode : String → Option String)
    (ps : List MessagePart)
    (h1 : ∀ part ∈ ps, part.mimeType ≠ none)
    (h2 : ∀ part ∈ ps, part.mimeType = some "text/plain" →
      ∃ d t, part.body = some ⟨some d⟩ ∧ decode d = some t) :
    ∃ b, scanParts decode ps = .ok b := by
  induction ps with
  | nil => exact ⟨"", rfl⟩
  | cons q ps ih =>
    have hq1 := h1 q (by simp)
    cases hmt : q.mimeType with
    | none => exact absurd hmt hq1
    | some m =>
      by_cases hm : m = "text/plain"
      · subst hm
        obtain ⟨d, t, hb, hd⟩ := h2 q (by simp) hmt
        exact ⟨t, by simp [scanParts, hmt, hb, hd]⟩
      · obtain ⟨b, hb⟩ := ih (fun x hx => h1 x (by simp [hx]))
          (fun x hx => h2 x (by simp [hx]))
        refine ⟨b, ?_⟩
        simp only [scanParts, hmt]
        rw [if_neg hm]
        exact hb

/-- C10 (amended): `parse_gmail_message` is total for every message that
carries an id and a payload with a headers list, provided every entry of
the parts array has a `mimeType`, every `text/plain` part among them
carries decodable body data, and — when no parts array is present — any
direct body data present is itself decodable; outside this precondition
the unguarded lookups can fail, e.g. a `text/plain` part whose `body`
lacks the `data` key raises `KeyError('data')`. -/
theorem parse_total_on_wellformed (decode : String → Option String)
    (msg : GmailMessage)
    (h1 : ∀ part ∈ msg.payload.parts.getD [], part.mimeType ≠ none)
    (h2 : ∀ part ∈ msg.payload.parts.getD [],
      part.mimeType = some "text/plain" →
      ∃ d t, part.body = some ⟨some d⟩ ∧ decode d = some t)
    (h3 : msg.payload.parts = none → ∀ pb d, msg.payload.body = some pb →
      pb.data = some d → ∃ t, decode d = some t) :
    (parse_gmail_message decode msg).isOk = true ∧
    parse_gmail_message badDecode noDataPlainMsg =
      .error (.keyError "data") := by
  refine ⟨?_, rfl⟩
  have hex : ∃ b, extractBody decode msg.payload = .ok b := by
    cases hparts : msg.payload.parts with
    | some ps =>
      rw [hparts] at h1 h2
      simp only [Option.getD] at h1 h2
      obtain ⟨b, hb⟩ := scanParts_total decode ps h1 h2
      exact ⟨b, by simp [extractBody, hparts, hb]⟩
    | none =>
      cases hbody : msg.payload.body with
      | none => exact ⟨"", by simp [extractBody, hparts, hbody]⟩
      | some pb =>
        cases hdata : pb.data with
        | none => exact ⟨"", by simp [extractBody, hparts, hbody, hdata]⟩
        | some d =>
          obtain ⟨t, ht⟩ := h3 hparts pb d hbody hdata
          exact ⟨t, by simp [extractBody, hparts, hbody, hdata, ht]⟩
  obtain ⟨b, hb⟩ := hex
  simp only [parse_gmail_message, hb]
  rfl

/-- Witness for `parse_total_on_wellformed` at the sample multipart
message: the precondition holds concretely and parsing succeeds. -/
theorem parse_total_on_wellformed_witness :
    (parse_gmail_message badDecode sampleMsg).isOk = true := by
  refine (parse_total_on_wellformed badDecode sampleMsg ?_ ?_ ?_).1
  · intro part hmem
    simp only [sampleMsg, Option.getD, List.mem_cons,
      List.mem_singleton] at hmem
    rcases hmem with h | h | h
    · rw [h]; simp [htmlPart, MessagePart.mimeType]
    · rw [h]; simp [plainPart, MessagePart.mimeType]
    · exact absurd h (by simp)
  · intro part hmem hplain
    simp only [sampleMsg, Option.getD, List.mem_cons,
      List.mem_singleton] at hmem
    rcases hmem with h | h | h
    · rw [h] at hplain
      exact absurd hplain (by decide)
    · refine ⟨" hello body ", " hello body ", ?_, rfl⟩
      rw [h]; rfl
    · exact absurd h (by simp)
  · intro hparts
    exact absurd hparts (by simp [sampleMsg])
